import Mathlib

/-!
Verification development for the peqwire repository (files peq-gain.py and
peqwire.py).  The Python sources are shallowly embedded: floating-point
arithmetic is modelled over the real numbers, the complex frequency
responses over the complex numbers, and fallible code paths (uncaught
exceptions, sys.exit(1)) by Except values.  The regular-expression engine
of the Python re module is an external library; its match results are
modelled as already-extracted fields (Option values and token lists), while
every decision taken by the repository code on those results is embedded
faithfully.
-/

noncomputable section

/-! ### Model of scipy.signal.freqz at a single frequency point

scipy.signal.freqz evaluates H(e^{jw}) = B(e^{-jw}) / A(e^{-jw}) where B
and A are the numerator and denominator coefficient polynomials. -/

/-- Evaluate a real-coefficient polynomial (coefficient list, constant term
first) at a complex point, in Horner form. -/
def zpoly : List ℝ → ℂ → ℂ
  | [], _ => 0
  | c :: cs, z => (c : ℂ) + z * zpoly cs z

/-- One point of the scipy.signal.freqz transfer-function evaluation:
H(w) = B(e^{-jw}) / A(e^{-jw}). -/
def freqz (b a : List ℝ) (w : ℝ) : ℂ :=
  zpoly b (Complex.exp (-(Complex.I * (w : ℂ)))) /
    zpoly a (Complex.exp (-(Complex.I * (w : ℂ))))

/-! ### peq-gain.py : biquad coefficient designers (lines 7-59) -/

namespace PeqGain

/-- peq-gain.py lines 7-21: peaking (bell) biquad designer.  Returns the
pair (b, a) of normalized coefficient lists. -/
def peaking_eq (fc gain_db Q fs : ℝ) : List ℝ × List ℝ :=
  let A := (10 : ℝ) ^ (gain_db / 40)
  let w0 := 2 * Real.pi * fc / fs
  let alpha := Real.sin w0 / (2 * Q)
  let b0 := 1 + alpha * A
  let b1 := -2 * Real.cos w0
  let b2 := 1 - alpha * A
  let a0 := 1 + alpha / A
  let a1 := -2 * Real.cos w0
  let a2 := 1 - alpha / A
  ([b0 / a0, b1 / a0, b2 / a0], [1, a1 / a0, a2 / a0])

/-- peq-gain.py lines 23-40: low-shelf biquad designer. -/
def low_shelf_eq (fc gain_db Q fs : ℝ) : List ℝ × List ℝ :=
  let A := (10 : ℝ) ^ (gain_db / 40)
  let w0 := 2 * Real.pi * fc / fs
  let sn := Real.sin w0
  let cs := Real.cos w0
  let alpha := sn / 2 * Real.sqrt ((A + 1 / A) * (1 / Q - 1) + 2)
  let beta := 2 * Real.sqrt A * alpha
  let b0 := A * ((A + 1) - (A - 1) * cs + beta)
  let b1 := 2 * A * ((A - 1) - (A + 1) * cs)
  let b2 := A * ((A + 1) - (A - 1) * cs - beta)
  let a0 := (A + 1) + (A - 1) * cs + beta
  let a1 := -2 * ((A - 1) + (A + 1) * cs)
  let a2 := (A + 1) + (A - 1) * cs - beta
  ([b0 / a0, b1 / a0, b2 / a0], [1, a1 / a0, a2 / a0])

/-- peq-gain.py lines 42-59: high-shelf biquad designer. -/
def high_shelf_eq (fc gain_db Q fs : ℝ) : List ℝ × List ℝ :=
  let A := (10 : ℝ) ^ (gain_db / 40)
  let w0 := 2 * Real.pi * fc / fs
  let sn := Real.sin w0
  let cs := Real.cos w0
  let alpha := sn / 2 * Real.sqrt ((A + 1 / A) * (1 / Q - 1) + 2)
  let beta := 2 * Real.sqrt A * alpha
  let b0 := A * ((A + 1) + (A - 1) * cs + beta)
  let b1 := -2 * A * ((A - 1) + (A + 1) * cs)
  let b2 := A * ((A + 1) + (A - 1) * cs - beta)
  let a0 := (A + 1) - (A - 1) * cs + beta
  let a1 := 2 * ((A - 1) - (A + 1) * cs)
  let a2 := (A + 1) - (A - 1) * cs - beta
  ([b0 / a0, b1 / a0, b2 / a0], [1, a1 / a0, a2 / a0])

/-! ### peq-gain.py : PEQ file parser (lines 61-154)

A parsed band is the tuple (type, fc, gain_db, Q) of line 145. -/

/-- One band tuple (type, fc, gain_db, Q) as appended on line 145. -/
abbrev PBand := String × ℝ × ℝ × ℝ

/-- The result tuple (preamp_db, bands, postamp_db) of line 154. -/
structure PgState where
  preamp_db : ℝ
  bands : List PBand
  postamp_db : ℝ

/-- Fatal outcomes of peq-gain.py, each ending in sys.exit(1):
the generic exception handler of lines 150-152 (reached by the NameError
on the undefined variable raw_type, line 137) and the empty-band check of
lines 172-174. -/
inductive PgError where
  | nameErrorRawType
  | noEnabledFilters
deriving DecidableEq

/-- The message printed for each fatal outcome (lines 151 and 173). -/
def PgError.message : PgError → String
  | .nameErrorRawType => "Error parsing file: name 'raw_type' is not defined"
  | .noEnabledFilters => "Error: No enabled filters found in PEQ file."

/-- One input line as seen by the parser loop of lines 83-145.  The regex
search results are carried as already-extracted fields: a Filter line holds
the status group of line 101, the whitespace-split token list of line 105,
and the optional Fc / Gain / Q capture values of lines 118-132. -/
inductive PLine where
  | preamp (db : ℝ)
  | preampNoMatch
  | postamp (db : ℝ)
  | postampNoMatch
  | filter (status : Option String) (parts : List String)
      (fc gain q : Option ℝ)
  | other

/-- peq-gain.py lines 73-79: the filter_type_map dictionary lookup. -/
def filter_type_map (part : String) : Option String :=
  if part = "LSC" then some "low_shelf"
  else if part = "LS" then some "low_shelf"
  else if part = "HSC" then some "high_shelf"
  else if part = "HS" then some "high_shelf"
  else if part = "PK" then some "peaking"
  else none

/-- peq-gain.py lines 108-112: scan the token list for the first token that
is a key of filter_type_map. -/
def find_filter_type : List String → Option String
  | [] => none
  | part :: rest =>
    match filter_type_map part with
    | some t => some t
    | none => find_filter_type rest

/-- Processing of one line in the loop body, peq-gain.py lines 83-145.
An Except.error models an exception that escapes to the handler of lines
150-152 (sys.exit(1)).  The missing-Q branch of lines 133-142 reads the
undefined variable raw_type (line 137) and therefore raises NameError
before any defaulting or skipping can happen. -/
def parse_line (st : PgState) : PLine → Except PgError PgState
  | .preamp db => .ok { st with preamp_db := db }
  | .preampNoMatch => .ok st
  | .postamp db => .ok { st with postamp_db := db }
  | .postampNoMatch => .ok st
  | .other => .ok st
  | .filter status parts fc gain q =>
    match status with
    | none => .ok st
    | some s =>
      if s = "ON" then
        match find_filter_type parts with
        | none => .ok st
        | some ftype =>
          match fc with
          | none => .ok st
          | some fcv =>
            match gain with
            | none => .ok st
            | some gv =>
              match q with
              | some qv =>
                .ok { st with bands := st.bands ++ [(ftype, fcv, gv, qv)] }
              | none => .error .nameErrorRawType
      else .ok st

/-- The line loop of peq-gain.py lines 83-145, with exception propagation
to the handler of lines 150-152. -/
def parse_lines : PgState → List PLine → Except PgError PgState
  | st, [] => .ok st
  | st, l :: rest =>
    match parse_line st l with
    | .ok st2 => parse_lines st2 rest
    | .error e => .error e

/-- peq-gain.py lines 61-154: parse_peq_file, starting from the initial
state preamp_db = 0.0, bands = [], postamp_db = 0.0 (lines 69-71). -/
def parse_peq_file (lines : List PLine) : Except PgError PgState :=
  parse_lines ⟨0, [], 0⟩ lines

/-! ### peq-gain.py : main cascade and gain staging (lines 157-253) -/

/-- The per-band dispatch and freqz call of lines 205-216; the final else
branch (line 212-213) contributes no factor, i.e. multiplies by 1. -/
def band_response (fs w : ℝ) : PBand → ℂ :=
  fun (ftype, fc, gain_db, Q) =>
    if ftype = "peaking" then
      let (b, a) := peaking_eq fc gain_db Q fs
      freqz b a w
    else if ftype = "low_shelf" then
      let (b, a) := low_shelf_eq fc gain_db Q fs
      freqz b a w
    else if ftype = "high_shelf" then
      let (b, a) := high_shelf_eq fc gain_db Q fs
      freqz b a w
    else 1

/-- The cascade accumulation of lines 203-216: H_total starts at 1+0j and
is multiplied by the response of each band in order, at one grid point. -/
def H_total (bands : List PBand) (fs w : ℝ) : ℂ :=
  bands.foldl (fun H band => H * band_response fs w band) 1

/-- Model of np.max over a list of dB values (np.max raises on an empty
array; main only reaches it with a non-empty grid, the nil case below is
an arbitrary junk value). -/
def np_max : List ℝ → ℝ
  | [] => 0
  | x :: xs => xs.foldl max x

/-- Model of np.min over a list of dB values (same remark as np_max). -/
def np_min : List ℝ → ℝ
  | [] => 0
  | x :: xs => xs.foldl min x

/-- The gain-staging values computed by main, peq-gain.py lines 219-242. -/
structure GainStagingResult where
  max_gain_db : ℝ
  min_gain_db : ℝ
  calculated_pre_atten_db : ℝ
  safe_post_gain_db : ℝ
  pre_atten_db : ℝ
  actual_post_gain : ℝ

/-- peq-gain.py lines 219-242: max/min of the combined dB curve, the
calculated pre-attenuation (line 223), the preamp override (lines
226-232), the safe post-gain (line 235), and the postamp override
(lines 238-242). -/
def gain_staging (G_total_db : List ℝ) (preamp_db postamp_db : ℝ) :
    GainStagingResult :=
  let max_gain_db := np_max G_total_db
  let min_gain_db := np_min G_total_db
  let calculated_pre_atten_db := max_gain_db + 0.1
  let pre_atten_db :=
    if preamp_db ≠ 0 then |preamp_db| else calculated_pre_atten_db
  let safe_post_gain_db := max_gain_db - min_gain_db
  let actual_post_gain :=
    if postamp_db ≠ 0 then postamp_db else safe_post_gain_db
  ⟨max_gain_db, min_gain_db, calculated_pre_atten_db, safe_post_gain_db,
    pre_atten_db, actual_post_gain⟩

/-- The main pipeline of peq-gain.py lines 170-242 after the file has been
read: parse, abort when no enabled filter was found (lines 172-174,
sys.exit(1)), otherwise compute the combined dB response over the grid
(lines 200-218) and the gain staging values.  fs = 48000 (line 187). -/
def main_run (lines : List PLine) (freqs : List ℝ) :
    Except PgError (List ℝ × GainStagingResult) :=
  match parse_peq_file lines with
  | .error e => .error e
  | .ok st =>
    match st.bands with
    | [] => .error .noEnabledFilters
    | _ :: _ =>
      let fs : ℝ := 48000
      let G_total_db := freqs.map fun f =>
        20 * Real.logb 10 (Complex.abs (H_total st.bands fs (2 * Real.pi * f / fs)))
      .ok (G_total_db, gain_staging G_total_db st.preamp_db st.postamp_db)

end PeqGain

/-! ### Spec section 4.1 : the cookbook coefficient formulas

These definitions follow the wording of the specification (section 4.1),
to be compared with the designers embedded from peq-gain.py above.  The
argument order is the one of the spec contract design(kind, fc, Q, gainDb,
fs); the Normalize step divides all six coefficients by a0, yielding final
a0 = 1. -/

namespace Cookbook

/-- Spec 4.1, Peaking: alpha = sin(w0)/(2Q), b0 = 1+alpha*A,
b1 = -2cos(w0), b2 = 1-alpha*A, a0 = 1+alpha/A, a1 = -2cos(w0),
a2 = 1-alpha/A, all divided by a0. -/
def peaking (fc Q gainDb fs : ℝ) : List ℝ × List ℝ :=
  let A := (10 : ℝ) ^ (gainDb / 40)
  let w0 := 2 * Real.pi * fc / fs
  let alpha := Real.sin w0 / (2 * Q)
  let b0 := 1 + alpha * A
  let b1 := -2 * Real.cos w0
  let b2 := 1 - alpha * A
  let a0 := 1 + alpha / A
  let a1 := -2 * Real.cos w0
  let a2 := 1 - alpha / A
  ([b0 / a0, b1 / a0, b2 / a0], [1, a1 / a0, a2 / a0])

/-- Spec 4.1, Low shelf: sn = sin(w0), cs = cos(w0),
alpha = (sn/2)*sqrt((A+1/A)(1/Q-1)+2), beta = 2*sqrt(A)*alpha, with the
low-shelf coefficient formulas, all divided by a0. -/
def low_shelf (fc Q gainDb fs : ℝ) : List ℝ × List ℝ :=
  let A := (10 : ℝ) ^ (gainDb / 40)
  let w0 := 2 * Real.pi * fc / fs
  let sn := Real.sin w0
  let cs := Real.cos w0
  let alpha := sn / 2 * Real.sqrt ((A + 1 / A) * (1 / Q - 1) + 2)
  let beta := 2 * Real.sqrt A * alpha
  let b0 := A * ((A + 1) - (A - 1) * cs + beta)
  let b1 := 2 * A * ((A - 1) - (A + 1) * cs)
  let b2 := A * ((A + 1) - (A - 1) * cs - beta)
  let a0 := (A + 1) + (A - 1) * cs + beta
  let a1 := -2 * ((A - 1) + (A + 1) * cs)
  let a2 := (A + 1) + (A - 1) * cs - beta
  ([b0 / a0, b1 / a0, b2 / a0], [1, a1 / a0, a2 / a0])

/-- Spec 4.1, High shelf: same alpha and beta as the low shelf, with the
high-shelf coefficient formulas, all divided by a0. -/
def high_shelf (fc Q gainDb fs : ℝ) : List ℝ × List ℝ :=
  let A := (10 : ℝ) ^ (gainDb / 40)
  let w0 := 2 * Real.pi * fc / fs
  let sn := Real.sin w0
  let cs := Real.cos w0
  let alpha := sn / 2 * Real.sqrt ((A + 1 / A) * (1 / Q - 1) + 2)
  let beta := 2 * Real.sqrt A * alpha
  let b0 := A * ((A + 1) + (A - 1) * cs + beta)
  let b1 := -2 * A * ((A - 1) + (A + 1) * cs)
  let b2 := A * ((A + 1) + (A - 1) * cs - beta)
  let a0 := (A + 1) - (A - 1) * cs + beta
  let a1 := 2 * ((A - 1) - (A + 1) * cs)
  let a2 := (A + 1) - (A - 1) * cs - beta
  ([b0 / a0, b1 / a0, b2 / a0], [1, a1 / a0, a2 / a0])

end Cookbook

/-! ### peqwire.py -/

namespace Peqwire

/-- peqwire.py lines 7-11: dB to linear volume conversion. -/
def vol_dB_to_linear (dB : ℝ) : ℝ := (10 : ℝ) ^ (dB / 20)

/-- peqwire.py lines 13-17: linear to dB volume conversion
(math.log10). -/
def vol_linear_to_dB (linear : ℝ) : ℝ := 20 * Real.logb 10 linear

/-- peqwire.py line 19. -/
def MAX_FILTERS : ℕ := 32

/-- peqwire.py line 20. -/
def FREQ_MIN : ℝ := 0

/-- peqwire.py line 21. -/
def FREQ_MAX : ℝ := 24000

/-- peqwire.py line 27. -/
def EQF_HISHELF : ℕ := 3

/-- peqwire.py lines 55-74: the PEQ_TO_LSP_FILTER dictionary lookup,
mapping a RoomEq filter-type token to the LSP plugin filter-type number
(eq_filter_t values of lines 24-35). -/
def PEQ_TO_LSP_FILTER (s : String) : Option ℕ :=
  if s = "LP" then some 4
  else if s = "LPQ" then some 4
  else if s = "HP" then some 2
  else if s = "HPQ" then some 2
  else if s = "LSC" then some 5
  else if s = "LS" then some 5
  else if s = "HSC" then some 3
  else if s = "HS" then some 3
  else if s = "PK" then some 1
  else if s = "MODAL" then some 1
  else if s = "PEQ" then some 1
  else if s = "BP" then some 9
  else if s = "LS 6DB" then some 5
  else if s = "HS 6DB" then some 5
  else if s = "LS 12DB" then some 5
  else if s = "HS 12DB" then some 5
  else if s = "NO" then some 6
  else if s = "AP" then some 8
  else none

/-- Model of the Python built-in round (round half to even), used on
line 177. -/
def py_round (x : ℝ) : ℤ :=
  if Int.fract x = 1 / 2 then (if Even ⌊x⌋ then ⌊x⌋ else ⌊x⌋ + 1)
  else round x

/-- One filter-chain node (the numeric control values of the dict built on
lines 136-145 and 180-189; the dict keys only encode the channel name and
the position of the node in the list and are output formatting). -/
structure LspNode where
  filter_type : ℕ
  filter_mode : ℕ
  filter_slope : ℕ
  frequency : ℤ
  filter_width : ℕ
  gain : ℝ
  quality : ℝ
  hue : ℕ

/-- One match of the filter_pattern regex of line 124: the five capture
groups (status, raw filter type, Fc, Gain, Q), with the numeric groups
already converted by float(). -/
structure FilterMatch where
  status : String
  ftype : String
  freq : ℝ
  gain : ℝ
  q : ℝ

/-- The ValueError exceptions raised on lines 169 and 172; they are
uncaught (parse_peq_file is called at module level, lines 233 and 235), so
the script aborts with a non-zero exit status. -/
inductive PwError where
  | invalidFilter (ftype : String)
  | invalidFreq (freq : ℝ)

/-- Model of the Python str.strip() call of line 156: drop leading and
trailing whitespace. -/
def py_strip (s : String) : String :=
  ⟨((s.data.dropWhile Char.isWhitespace).reverse.dropWhile
      Char.isWhitespace).reverse⟩

/-- The preamp node of peqwire.py lines 136-145: High-Shelf type,
frequency 0 Hz, linear gain, quality factor 1. -/
def preamp_node (gain : ℝ) : LspNode :=
  ⟨EQF_HISHELF, 0, 0, 0, 6, vol_dB_to_linear gain, 1, 0⟩

/-- The filter node of peqwire.py lines 180-189. -/
def filter_node (filter_type_nr : ℕ) (m : FilterMatch) : LspNode :=
  ⟨filter_type_nr, 0, 0, py_round m.freq, 6, vol_dB_to_linear m.gain,
    m.q, 0⟩

/-- The filter loop of peqwire.py lines 150-190: early return when
MAX_FILTERS nodes are accumulated (lines 151-153), skip OFF filters
(lines 162-163), ValueError on an unknown type token (lines 166-169) or an
out-of-range frequency (lines 171-172), otherwise append a node. -/
def parse_filters : List FilterMatch → List LspNode →
    Except PwError (List LspNode)
  | [], nodes => .ok nodes
  | m :: rest, nodes =>
    if nodes.length = MAX_FILTERS then .ok nodes
    else if m.status = "OFF" then parse_filters rest nodes
    else
      match PEQ_TO_LSP_FILTER (py_strip m.ftype) with
      | none => .error (.invalidFilter (py_strip m.ftype))
      | some nr =>
        if m.freq > FREQ_MAX ∨ m.freq < FREQ_MIN then
          .error (.invalidFreq m.freq)
        else parse_filters rest (nodes ++ [filter_node nr m])

/-- peqwire.py lines 108-192: parse_peq_file, over the optional Preamp
match (lines 127-147) and the list of filter_pattern matches.  The check
on line 129 is applied to the node list before the preamp node is
appended, exactly as in the source (where it can never fire, the list
being empty at that point). -/
def parse_peq_file (preamp : Option ℝ) (ms : List FilterMatch) :
    Except PwError (List LspNode) :=
  let nodes : List LspNode := []
  match preamp with
  | some gain =>
    if nodes.length = MAX_FILTERS then .ok nodes
    else parse_filters ms (nodes ++ [preamp_node gain])
  | none => parse_filters ms nodes

end Peqwire

/-! ### Helper lemmas on the fold-based max / min of a list -/

lemma foldl_max_init_le (xs : List ℝ) (a : ℝ) : a ≤ xs.foldl max a := by
  induction xs generalizing a with
  | nil => exact le_refl a
  | cons x xs ih => exact le_trans (le_max_left a x) (ih (max a x))

lemma le_foldl_max (xs : List ℝ) (a y : ℝ) (hy : y ∈ xs) :
    y ≤ xs.foldl max a := by
  induction xs generalizing a with
  | nil => cases hy
  | cons x xs ih =>
    rcases List.mem_cons.mp hy with h | h
    · subst h
      exact le_trans (le_max_right a y) (foldl_max_init_le xs (max a y))
    · exact ih (max a x) h

lemma foldl_max_shift (xs : List ℝ) (a b : ℝ) :
    xs.foldl max (max a b) = max a (xs.foldl max b) := by
  induction xs generalizing a b with
  | nil => rfl
  | cons x xs ih =>
    show xs.foldl max (max (max a b) x) = max a (xs.foldl max (max b x))
    rw [max_assoc, ih]

lemma foldl_min_init_le (xs : List ℝ) (a : ℝ) : xs.foldl min a ≤ a := by
  induction xs generalizing a with
  | nil => exact le_refl a
  | cons x xs ih => exact le_trans (ih (min a x)) (min_le_left a x)

lemma foldl_min_le (xs : List ℝ) (a y : ℝ) (hy : y ∈ xs) :
    xs.foldl min a ≤ y := by
  induction xs generalizing a with
  | nil => cases hy
  | cons x xs ih =>
    rcases List.mem_cons.mp hy with h | h
    · subst h
      exact le_trans (foldl_min_init_le xs (min a y)) (min_le_right a y)
    · exact ih (min a x) h

lemma foldl_min_shift (xs : List ℝ) (a b : ℝ) :
    xs.foldl min (min a b) = min a (xs.foldl min b) := by
  induction xs generalizing a b with
  | nil => rfl
  | cons x xs ih =>
    show xs.foldl min (min (min a b) x) = min a (xs.foldl min (min b x))
    rw [min_assoc, ih]

lemma np_max_eq_maximum (l : List ℝ) (h : l ≠ []) :
    l.maximum = (PeqGain.np_max l : WithBot ℝ) := by
  induction l with
  | nil => exact absurd rfl h
  | cons x xs ih =>
    cases xs with
    | nil => simp [PeqGain.np_max, List.maximum_cons]
    | cons y ys =>
      rw [List.maximum_cons, ih (by simp)]
      show max (x : WithBot ℝ) ((PeqGain.np_max (y :: ys) : ℝ) : WithBot ℝ)
        = ((PeqGain.np_max (x :: y :: ys) : ℝ) : WithBot ℝ)
      rw [← WithBot.coe_max]
      congr 1
      show max x (ys.foldl max y) = (y :: ys).foldl max x
      rw [show (y :: ys).foldl max x = ys.foldl max (max x y) from rfl,
        foldl_max_shift]

lemma np_min_eq_minimum (l : List ℝ) (h : l ≠ []) :
    l.minimum = (PeqGain.np_min l : WithTop ℝ) := by
  induction l with
  | nil => exact absurd rfl h
  | cons x xs ih =>
    cases xs with
    | nil => simp [PeqGain.np_min, List.minimum_cons]
    | cons y ys =>
      rw [List.minimum_cons, ih (by simp)]
      show min (x : WithTop ℝ) ((PeqGain.np_min (y :: ys) : ℝ) : WithTop ℝ)
        = ((PeqGain.np_min (x :: y :: ys) : ℝ) : WithTop ℝ)
      rw [← WithTop.coe_min]
      congr 1
      show min x (ys.foldl min y) = (y :: ys).foldl min x
      rw [show (y :: ys).foldl min x = ys.foldl min (min x y) from rfl,
        foldl_min_shift]

/-! ### Claim theorems -/

/-- C1: for every fc, Q > 0, gainDb and fs > 0, the three coefficient
designers of peq-gain.py compute exactly the cookbook coefficients of spec
section 4.1 for their filter kind, normalized by the unnormalized a0, and
the returned denominator list starts with 1. -/
theorem design_matches_cookbook (fc Q gainDb fs : ℝ)
    (hQ : 0 < Q) (hfs : 0 < fs) :
    PeqGain.peaking_eq fc gainDb Q fs = Cookbook.peaking fc Q gainDb fs ∧
    PeqGain.low_shelf_eq fc gainDb Q fs = Cookbook.low_shelf fc Q gainDb fs ∧
    PeqGain.high_shelf_eq fc gainDb Q fs = Cookbook.high_shelf fc Q gainDb fs ∧
    (PeqGain.peaking_eq fc gainDb Q fs).2.head? = some 1 ∧
    (PeqGain.low_shelf_eq fc gainDb Q fs).2.head? = some 1 ∧
    (PeqGain.high_shelf_eq fc gainDb Q fs).2.head? = some 1 :=
  ⟨rfl, rfl, rfl, rfl, rfl, rfl⟩

/-- Witness for C1 at fc = 1000, gainDb = 3, Q = 1, fs = 48000. -/
theorem design_matches_cookbook_witness :
    PeqGain.peaking_eq 1000 3 1 48000 = Cookbook.peaking 1000 1 3 48000 ∧
    (PeqGain.peaking_eq 1000 3 1 48000).2.head? = some 1 :=
  ⟨(design_matches_cookbook 1000 1 3 48000 (by norm_num) (by norm_num)).1,
   (design_matches_cookbook 1000 1 3 48000 (by norm_num)
     (by norm_num)).2.2.2.1⟩

/-- C2: for every non-empty dB curve, the gain staging analysis satisfies
calculated_pre_atten_db = maxGainDb + 0.1 and safe_post_gain_db =
maxGainDb - minGainDb, where the fold-computed np_max / np_min values are
exactly the maximum and minimum of the curve. -/
theorem gain_staging_identities (curve : List ℝ) (preamp_db postamp_db : ℝ)
    (h : curve ≠ []) :
    curve.maximum = (PeqGain.np_max curve : WithBot ℝ) ∧
    curve.minimum = (PeqGain.np_min curve : WithTop ℝ) ∧
    (PeqGain.gain_staging curve preamp_db postamp_db).calculated_pre_atten_db
      = PeqGain.np_max curve + 0.1 ∧
    (PeqGain.gain_staging curve preamp_db postamp_db).safe_post_gain_db
      = PeqGain.np_max curve - PeqGain.np_min curve :=
  ⟨np_max_eq_maximum curve h, np_min_eq_minimum curve h, rfl, rfl⟩

/-- Witness for C2 on the curve [1, 2]. -/
theorem gain_staging_identities_witness :
    ([1, 2] : List ℝ).maximum = (PeqGain.np_max [1, 2] : WithBot ℝ) ∧
    ([1, 2] : List ℝ).minimum = (PeqGain.np_min [1, 2] : WithTop ℝ) ∧
    (PeqGain.gain_staging [1, 2] 0 0).calculated_pre_atten_db
      = PeqGain.np_max [1, 2] + 0.1 ∧
    (PeqGain.gain_staging [1, 2] 0 0).safe_post_gain_db
      = PeqGain.np_max [1, 2] - PeqGain.np_min [1, 2] :=
  gain_staging_identities [1, 2] 0 0 (by simp)

/-- C7: the preamp override, when non-zero, replaces the calculated
pre-attenuation by its absolute value, and the postamp override, when
non-zero, replaces the safe post-gain verbatim; otherwise the calculated
values are used. -/
theorem override_semantics (curve : List ℝ) (preamp_db postamp_db : ℝ) :
    (preamp_db ≠ 0 →
      (PeqGain.gain_staging curve preamp_db postamp_db).pre_atten_db
        = |preamp_db|) ∧
    (preamp_db = 0 →
      (PeqGain.gain_staging curve preamp_db postamp_db).pre_atten_db
        = (PeqGain.gain_staging curve preamp_db postamp_db).calculated_pre_atten_db) ∧
    (postamp_db ≠ 0 →
      (PeqGain.gain_staging curve preamp_db postamp_db).actual_post_gain
        = postamp_db) ∧
    (postamp_db = 0 →
      (PeqGain.gain_staging curve preamp_db postamp_db).actual_post_gain
        = (PeqGain.gain_staging curve preamp_db postamp_db).safe_post_gain_db) := by
  refine ⟨fun h => ?_, fun h => ?_, fun h => ?_, fun h => ?_⟩ <;>
    simp [PeqGain.gain_staging, h]

/-- Witness for C7 with overrides preamp = 2, postamp = -3 on the curve
[0]. -/
theorem override_semantics_witness :
    (PeqGain.gain_staging [0] 2 (-3)).pre_atten_db = |(2 : ℝ)| ∧
    (PeqGain.gain_staging [0] 2 (-3)).actual_post_gain = -3 :=
  ⟨(override_semantics [0] 2 (-3)).1 (by norm_num),
   (override_semantics [0] 2 (-3)).2.2.1 (by norm_num)⟩

/-- C8: when parsing yields an empty band list, main aborts with the
no-enabled-filters error (sys.exit(1)) and produces no response curve or
gain staging result. -/
theorem no_enabled_filters_fatal (lines : List PeqGain.PLine)
    (freqs : List ℝ) (st : PeqGain.PgState)
    (hparse : PeqGain.parse_peq_file lines = .ok st)
    (hempty : st.bands = []) :
    PeqGain.main_run lines freqs = .error .noEnabledFilters ∧
    PeqGain.PgError.message .noEnabledFilters
      = "Error: No enabled filters found in PEQ file." := by
  refine ⟨?_, rfl⟩
  unfold PeqGain.main_run
  rw [hparse]
  simp only [hempty]

/-- Witness for C8 on the empty input file. -/
theorem no_enabled_filters_fatal_witness :
    PeqGain.main_run [] [] = .error .noEnabledFilters ∧
    PeqGain.PgError.message .noEnabledFilters
      = "Error: No enabled filters found in PEQ file." :=
  no_enabled_filters_fatal [] [] ⟨0, [], 0⟩ rfl rfl

/-- Helper invariant for C9: the filter loop never grows the node list
beyond MAX_FILTERS. -/
lemma parse_filters_length_le (ms : List Peqwire.FilterMatch) :
    ∀ nodes r : List Peqwire.LspNode,
      nodes.length ≤ Peqwire.MAX_FILTERS →
      Peqwire.parse_filters ms nodes = .ok r →
      r.length ≤ Peqwire.MAX_FILTERS := by
  induction ms with
  | nil =>
    intro nodes r h hp
    simp only [Peqwire.parse_filters, Except.ok.injEq] at hp
    exact hp ▸ h
  | cons m rest ih =>
    intro nodes r h hp
    by_cases h32 : nodes.length = Peqwire.MAX_FILTERS
    · simp only [Peqwire.parse_filters, h32, if_pos, Except.ok.injEq] at hp
      exact hp ▸ h
    · by_cases hoff : m.status = "OFF"
      · simp only [Peqwire.parse_filters, h32, hoff, if_neg, if_pos,
          if_true, if_false] at hp
        exact ih nodes r h hp
      · cases hlk : Peqwire.PEQ_TO_LSP_FILTER (Peqwire.py_strip m.ftype) with
        | none =>
          simp only [Peqwire.parse_filters, h32, hoff, hlk, if_neg,
            if_false] at hp
          exact Except.noConfusion hp
        | some nr =>
          by_cases hfr : m.freq > Peqwire.FREQ_MAX ∨ m.freq < Peqwire.FREQ_MIN
          · simp only [Peqwire.parse_filters, h32, hoff, hlk, hfr, if_neg,
              if_pos, if_true, if_false] at hp
            exact Except.noConfusion hp
          · simp only [Peqwire.parse_filters, h32, hoff, hlk, hfr, if_neg,
              if_false] at hp
            refine ih _ r ?_ hp
            have : nodes.length < Peqwire.MAX_FILTERS :=
              lt_of_le_of_ne h h32
            simpa using this

/-- C9: parse_peq_file of peqwire.py returns at most MAX_FILTERS = 32
nodes, and once the node list has reached MAX_FILTERS the filter loop
returns it immediately, adding nothing further. -/
theorem peqwire_max_filters :
    (∀ (preamp : Option ℝ) (ms : List Peqwire.FilterMatch)
        (nodes : List Peqwire.LspNode),
        Peqwire.parse_peq_file preamp ms = .ok nodes →
        nodes.length ≤ Peqwire.MAX_FILTERS) ∧
    (∀ (ms : List Peqwire.FilterMatch) (nodes : List Peqwire.LspNode),
        nodes.length = Peqwire.MAX_FILTERS →
        Peqwire.parse_filters ms nodes = .ok nodes) := by
  constructor
  · intro preamp ms nodes hp
    cases preamp with
    | none =>
      exact parse_filters_length_le ms [] nodes (by simp) hp
    | some g =>
      simp only [Peqwire.parse_peq_file, List.length_nil,
        List.nil_append] at hp
      rcases hp' : Peqwire.parse_filters ms [Peqwire.preamp_node g] with e | r
      · rw [if_neg (by simp [Peqwire.MAX_FILTERS]), hp'] at hp; cases hp
      · rw [if_neg (by simp [Peqwire.MAX_FILTERS]), hp'] at hp
        cases hp
        exact parse_filters_length_le ms [Peqwire.preamp_node g] nodes
          (by simp [Peqwire.MAX_FILTERS]) hp'
  · intro ms nodes h
    cases ms with
    | nil => rfl
    | cons m rest => simp [Peqwire.parse_filters, h]

/-- Witness for C9: the empty parse and the saturated loop. -/
theorem peqwire_max_filters_witness :
    ([] : List Peqwire.LspNode).length ≤ Peqwire.MAX_FILTERS ∧
    Peqwire.parse_filters [⟨"ON", "PK", 100, 1, 1⟩]
        (List.replicate 32 (Peqwire.preamp_node 0))
      = .ok (List.replicate 32 (Peqwire.preamp_node 0)) :=
  ⟨peqwire_max_filters.1 none [] [] rfl,
   peqwire_max_filters.2 [⟨"ON", "PK", 100, 1, 1⟩]
     (List.replicate 32 (Peqwire.preamp_node 0))
     (by simp [Peqwire.MAX_FILTERS])⟩

/-- C10: the decibel / linear volume conversions of peqwire.py are
mutually inverse in exact arithmetic; the linear-side round trip needs a
positive linear value. -/
theorem vol_db_linear_inverse :
    (∀ dB : ℝ,
      Peqwire.vol_linear_to_dB (Peqwire.vol_dB_to_linear dB) = dB) ∧
    (∀ x : ℝ, 0 < x →
      Peqwire.vol_dB_to_linear (Peqwire.vol_linear_to_dB x) = x) := by
  constructor
  · intro dB
    unfold Peqwire.vol_linear_to_dB Peqwire.vol_dB_to_linear
    rw [Real.logb_rpow (by norm_num) (by norm_num)]
    ring
  · intro x hx
    unfold Peqwire.vol_linear_to_dB Peqwire.vol_dB_to_linear
    rw [show 20 * Real.logb 10 x / 20 = Real.logb 10 x by ring]
    exact Real.rpow_logb (by norm_num) (by norm_num) hx

/-- Witness for C10 at dB = 3 and linear value 2. -/
theorem vol_db_linear_inverse_witness :
    Peqwire.vol_linear_to_dB (Peqwire.vol_dB_to_linear 3) = 3 ∧
    (0 : ℝ) < 2 ∧
    Peqwire.vol_dB_to_linear (Peqwire.vol_linear_to_dB 2) = 2 :=
  ⟨vol_db_linear_inverse.1 3, by norm_num,
   vol_db_linear_inverse.2 2 (by norm_num)⟩

/-- A PEQ file (token-level) with an enabled Filter line of unknown type
XX followed by an enabled valid PK line, for C5. -/
def c5_lines : List PeqGain.PLine :=
  [.filter (some "ON")
      ["Filter", "1:", "ON", "XX", "Fc", "100", "Hz", "Gain", "1.0", "dB",
        "Q", "1.0"]
      (some 100) (some 1) (some 1),
   .filter (some "ON")
      ["Filter", "2:", "ON", "PK", "Fc", "7600", "Hz", "Gain", "4.0", "dB",
        "Q", "3.0"]
      (some 7600) (some 4) (some 3)]

/-- C5 counterexample: peq-gain.py does not abort on an enabled Filter
line of unknown type XX; the line is silently skipped, parsing succeeds
with the remaining band, and main proceeds to produce a response curve and
gain staging result. -/
theorem unknown_type_not_fatal_in_peq_gain :
    PeqGain.parse_peq_file c5_lines
      = .ok ⟨0, [("peaking", 7600, 4, 3)], 0⟩ ∧
    ∃ r, PeqGain.main_run c5_lines [1000] = .ok r :=
  ⟨rfl, ⟨_, rfl⟩⟩

/-- C5 amended: an enabled Filter line with an unknown type token is
silently skipped by the parser of peq-gain.py (parsing continues as if the
line were absent), while the parser of peqwire.py aborts by raising
ValueError (non-zero exit) when an enabled filter match has an unknown
type token. -/
theorem unknown_type_behavior :
    (∀ (st : PeqGain.PgState) (parts : List String) (fc gain q : Option ℝ)
        (rest : List PeqGain.PLine),
        PeqGain.find_filter_type parts = none →
        PeqGain.parse_lines st (.filter (some "ON") parts fc gain q :: rest)
          = PeqGain.parse_lines st rest) ∧
    (∀ (m : Peqwire.FilterMatch) (rest : List Peqwire.FilterMatch)
        (nodes : List Peqwire.LspNode),
        nodes.length ≠ Peqwire.MAX_FILTERS → m.status ≠ "OFF" →
        Peqwire.PEQ_TO_LSP_FILTER (Peqwire.py_strip m.ftype) = none →
        Peqwire.parse_filters (m :: rest) nodes
          = .error (.invalidFilter (Peqwire.py_strip m.ftype))) := by
  constructor
  · intro st parts fc gain q rest hfind
    simp [PeqGain.parse_lines, PeqGain.parse_line, hfind]
  · intro m rest nodes h32 hoff hlk
    simp [Peqwire.parse_filters, h32, hoff, hlk]

/-- Witness for the amended C5 statement, on concrete inputs with the
unknown type token XX. -/
theorem unknown_type_behavior_witness :
    PeqGain.parse_lines ⟨0, [], 0⟩
        [.filter (some "ON") ["XX"] (some 100) (some 1) (some 1)]
      = PeqGain.parse_lines ⟨0, [], 0⟩ [] ∧
    Peqwire.parse_filters [⟨"ON", "XX", 100, 1, 1⟩] []
      = .error (.invalidFilter (Peqwire.py_strip "XX")) :=
  ⟨unknown_type_behavior.1 ⟨0, [], 0⟩ ["XX"] (some 100) (some 1) (some 1)
      [] rfl,
   unknown_type_behavior.2 ⟨"ON", "XX", 100, 1, 1⟩ [] [] (by decide)
     (by decide) rfl⟩

/-- An enabled low-shelf Filter line with valid Fc and Gain but no Q
field, for C6. -/
def c6_line : PeqGain.PLine :=
  .filter (some "ON")
    ["Filter", "1:", "ON", "LS", "Fc", "100", "Hz", "Gain", "2.0", "dB"]
    (some 100) (some 2) none

/-- C6 (code bug): on an enabled filter line with a missing Q field the
parser of peq-gain.py reads the undefined variable raw_type (line 137),
so the NameError escapes to the generic handler and the whole run exits
with status 1 -- the shelf default Q = 0.707 promised by the comments on
lines 134-140 (and by the claim) is never applied, and no band list is
returned. -/
theorem missing_q_name_error :
    PeqGain.parse_peq_file [c6_line] = .error .nameErrorRawType := rfl

/-- The evaluation point e^{-jw} written out through real cosine and
sine. -/
lemma exp_neg_I_mul (w : ℝ) :
    Complex.exp (-(Complex.I * (w : ℂ)))
      = (Real.cos w : ℂ) - (Real.sin w : ℂ) * Complex.I := by
  have h1 : -(Complex.I * (w : ℂ)) = ((-w : ℝ) : ℂ) * Complex.I := by
    push_cast; ring
  rw [h1, Complex.exp_mul_I, ← Complex.ofReal_cos, ← Complex.ofReal_sin]
  push_cast [Real.cos_neg, Real.sin_neg]
  ring

/-- The quadratic (1+a) - 2c z + (1-a) z^2 never vanishes on the unit
circle z = e^{-jw} when a > 0 and c is the cosine of an angle with
positive sine. -/
lemma quad_ne_zero (α c s0 : ℝ) (hα : 0 < α) (hs0 : 0 < s0)
    (hpyth : s0 ^ 2 + c ^ 2 = 1) (w : ℝ) :
    ((1 + α : ℝ) : ℂ) + ((-2 * c : ℝ) : ℂ) * Complex.exp (-(Complex.I * (w : ℂ)))
      + ((1 - α : ℝ) : ℂ) * Complex.exp (-(Complex.I * (w : ℂ))) ^ 2 ≠ 0 := by
  intro h
  rw [exp_neg_I_mul] at h
  simp only [Complex.ext_iff, Complex.add_re, Complex.add_im, Complex.mul_re,
    Complex.mul_im, Complex.sub_re, Complex.sub_im, Complex.ofReal_re,
    Complex.ofReal_im, Complex.I_re, Complex.I_im, Complex.zero_re,
    Complex.zero_im, pow_two] at h
  obtain ⟨hre, him⟩ := h
  ring_nf at hre him
  have hpw : Real.sin w ^ 2 + Real.cos w ^ 2 = 1 := Real.sin_sq_add_cos_sq w
  have hfac : Real.sin w * (c - (1 - α) * Real.cos w) = 0 := by
    linear_combination him / 2
  rcases mul_eq_zero.mp hfac with hsw | hcc
  · rw [hsw] at hre hpw
    have hcw2 : Real.cos w ^ 2 = 1 := by nlinarith [hpw]
    have hccw : c * Real.cos w = 1 := by
      linear_combination -(hre + (α - 1) * hcw2) / 2
    have hc2 : c ^ 2 < 1 := by nlinarith [hpyth, mul_pos hs0 hs0]
    have hfac2 : (Real.cos w - 1) * (Real.cos w + 1) = 0 := by
      linear_combination hcw2
    rcases mul_eq_zero.mp hfac2 with h1 | h1
    · have hcw1 : Real.cos w = 1 := by linarith
      rw [hcw1, mul_one] at hccw
      nlinarith [hc2]
    · have hcw1 : Real.cos w = -1 := by linarith
      rw [hcw1] at hccw
      have hc1 : c = -1 := by linarith
      nlinarith [hc2]
  · have h2 : 2 * α = 0 := by
      linear_combination hre + 2 * Real.cos w * hcc + (1 - α) * hpw
    linarith

/-- C3: a single peaking band designed with gainDb = 0 is the identity
filter: for 0 < fc < fs/2 and Q > 0 the designed numerator equals the
normalized denominator, and the transfer-function magnitude is exactly 1
at every evaluation frequency. -/
theorem peaking_zero_gain_identity (fc Q fs w : ℝ)
    (hfc : 0 < fc) (hfc2 : fc < fs / 2) (hQ : 0 < Q) :
    (PeqGain.peaking_eq fc 0 Q fs).1 = (PeqGain.peaking_eq fc 0 Q fs).2 ∧
    Complex.abs (freqz (PeqGain.peaking_eq fc 0 Q fs).1
      (PeqGain.peaking_eq fc 0 Q fs).2 w) = 1 := by
  have hfs : 0 < fs := by linarith
  set w0 := 2 * Real.pi * fc / fs with hw0
  have hw0pos : 0 < w0 := by rw [hw0]; positivity
  have hw0lt : w0 < Real.pi := by
    rw [hw0, div_lt_iff₀ hfs]
    nlinarith [mul_pos Real.pi_pos (show (0:ℝ) < fs - 2 * fc by linarith)]
  have hs0 : 0 < Real.sin w0 := Real.sin_pos_of_pos_of_lt_pi hw0pos hw0lt
  set α := Real.sin w0 / (2 * Q) with hαdef
  have hα : 0 < α := div_pos hs0 (by linarith)
  have h1α : (1 : ℝ) + α ≠ 0 := ne_of_gt (by positivity)
  have hcoef : PeqGain.peaking_eq fc 0 Q fs
      = ([(1 + α) / (1 + α), -2 * Real.cos w0 / (1 + α), (1 - α) / (1 + α)],
         [1, -2 * Real.cos w0 / (1 + α), (1 - α) / (1 + α)]) := by
    simp only [PeqGain.peaking_eq, zero_div, Real.rpow_zero, mul_one, div_one]
  have hfirst : ((1 + α) / (1 + α) : ℝ) = 1 := div_self h1α
  have hD : zpoly [1, -2 * Real.cos w0 / (1 + α), (1 - α) / (1 + α)]
      (Complex.exp (-(Complex.I * (w : ℂ)))) ≠ 0 := by
    intro h0
    apply quad_ne_zero α (Real.cos w0) (Real.sin w0) hα hs0
      (Real.sin_sq_add_cos_sq w0) w
    have hDcalc : ((1 + α : ℝ) : ℂ) *
        zpoly [1, -2 * Real.cos w0 / (1 + α), (1 - α) / (1 + α)]
          (Complex.exp (-(Complex.I * (w : ℂ))))
        = ((1 + α : ℝ) : ℂ)
          + ((-2 * Real.cos w0 : ℝ) : ℂ) * Complex.exp (-(Complex.I * (w : ℂ)))
          + ((1 - α : ℝ) : ℂ) * Complex.exp (-(Complex.I * (w : ℂ))) ^ 2 := by
      simp only [zpoly]
      push_cast
      have h1αc : ((1 : ℂ) + (α : ℂ)) ≠ 0 := by
        intro hc
        apply h1α
        have := congrArg Complex.re hc
        simpa using this
      field_simp
      ring
    rw [← hDcalc, h0, mul_zero]
  refine ⟨?_, ?_⟩
  · rw [hcoef, hfirst]
  · rw [hcoef]
    show Complex.abs (freqz _ _ w) = 1
    rw [hfirst]
    unfold freqz
    rw [div_self hD, map_one]

/-- Witness for C3 at fc = 12000, Q = 1, fs = 48000, w = 1. -/
theorem peaking_zero_gain_identity_witness :
    (PeqGain.peaking_eq 12000 0 1 48000).1
      = (PeqGain.peaking_eq 12000 0 1 48000).2 ∧
    Complex.abs (freqz (PeqGain.peaking_eq 12000 0 1 48000).1
      (PeqGain.peaking_eq 12000 0 1 48000).2 1) = 1 :=
  peaking_zero_gain_identity 12000 1 48000 1 (by norm_num) (by norm_num)
    (by norm_num)

/-- The cascade accumulation is the product of the mapped per-band
responses. -/
lemma H_total_eq_prod (bands : List PeqGain.PBand) (fs w : ℝ) :
    PeqGain.H_total bands fs w
      = (bands.map (PeqGain.band_response fs w)).prod := by
  rw [List.prod_eq_foldl, List.foldl_map]
  rfl

/-- C4: the combined cascade response (elementwise product of per-band
complex responses, seeded at 1+0j) is invariant under permutation of the
band list, at every sample rate and every grid point. -/
theorem cascade_perm_invariant (l₁ l₂ : List PeqGain.PBand) (fs w : ℝ)
    (h : l₁.Perm l₂) :
    PeqGain.H_total l₁ fs w = PeqGain.H_total l₂ fs w := by
  rw [H_total_eq_prod, H_total_eq_prod]
  exact (h.map (PeqGain.band_response fs w)).prod_eq

/-- A concrete peaking band for the C4 witness. -/
def band_a : PeqGain.PBand := ("peaking", 100, 3, 1)

/-- A concrete low-shelf band for the C4 witness. -/
def band_b : PeqGain.PBand := ("low_shelf", 65, 8.5, 0.7)

/-- Witness for C4: swapping two concrete bands leaves the cascade
response unchanged. -/
theorem cascade_perm_invariant_witness :
    PeqGain.H_total [band_a, band_b] 48000 1
      = PeqGain.H_total [band_b, band_a] 48000 1 :=
  cascade_perm_invariant [band_a, band_b] [band_b, band_a] 48000 1
    (List.Perm.swap band_b band_a [])

end
